import Mathlib

/-!
# Verification of the comment-processing pipeline (`app.py`)

A shallow embedding of the core of the MusicTheory workbench server
(`src/app.py`): the data model (`Comment`, `ConsolidatedComment`,
`ExecutiveSummary`, the file-backed store), the pipeline stages
(review-suggest, translate, consolidate, summarize, ask) and the two
POST handlers (`/api/comment`, `/api/ask`).

Modelling choices:

* `call_openai` (the HTTP call to the external text-generation endpoint,
  `app.py` lines 60-91) is modelled by an *oracle*: a function from the
  stage-level invocation (api key plus the stage's own arguments, from
  which the stage builds its prompts) to either the returned content
  string or a `RuntimeError` message.  Each stage function returns,
  alongside its result, the list of upstream invocations it performed,
  so that "the client was never called" and "the consolidate stage was
  invoked with rules R" are stated as facts about that trace.
* The `Store` value threaded through a handler models the *backing
  file* (`data/comments_store.json`): the handler receives the store
  that `load_store()` would read and returns the store the file holds
  after the request.  `save_store` runs only where the source calls it.
* `utc_now()` is modelled by a `now : String` parameter.
* Python's `json.loads` (used by the review-suggest stage) is modelled
  from the Python stdlib by an executable parser `json_loads` over the
  JSON fragment exercised here: null, booleans, integer numbers,
  strings, arrays, objects.  Float literals and `\uXXXX` escapes are
  not modelled (they make the parse fail); no claim depends on them.
-/

/-- A JSON value, as produced by `json.loads`.  Numbers are modelled as
integers (float literals are outside the scope of the claims). -/
inductive Json where
  | null : Json
  | bool (b : Bool) : Json
  | num (n : Int) : Json
  | str (s : String) : Json
  | arr (elems : List Json) : Json
  | obj (fields : List (String × Json)) : Json
deriving Repr

/-- JSON whitespace skipping (space, tab, newline, carriage return). -/
def skipWs : List Char → List Char
  | c :: cs => if c = ' ' ∨ c = '\t' ∨ c = '\n' ∨ c = '\r' then skipWs cs else c :: cs
  | [] => []

/-- Decode one character escape of a JSON string literal (`\uXXXX` is not
modelled and yields a parse failure). -/
def escChar (c : Char) : Option Char :=
  if c = '"' then some '"'
  else if c = '\\' then some '\\'
  else if c = '/' then some '/'
  else if c = 'n' then some '\n'
  else if c = 't' then some '\t'
  else if c = 'r' then some '\r'
  else if c = 'b' then some (Char.ofNat 8)
  else if c = 'f' then some (Char.ofNat 12)
  else none

/-- Parse the body of a JSON string literal (after the opening quote),
returning the decoded characters and the input following the closing
quote. -/
def parseStringChars : List Char → Option (List Char × List Char)
  | [] => none
  | '"' :: rest => some ([], rest)
  | '\\' :: e :: rest => do
      let c ← escChar e
      let (cs, r) ← parseStringChars rest
      pure (c :: cs, r)
  | '\\' :: [] => none
  | c :: rest => do
      let (cs, r) ← parseStringChars rest
      pure (c :: cs, r)

/-- Split off a maximal run of decimal digits. -/
def spanDigits : List Char → List Char × List Char
  | [] => ([], [])
  | c :: cs =>
      if c.isDigit then
        let (ds, rest) := spanDigits cs
        (c :: ds, rest)
      else ([], c :: cs)

/-- Parse a nonempty run of digits as a natural number; fail when the
number continues as a float/exponent literal (not modelled). -/
def parseNat (input : List Char) : Option (Nat × List Char) :=
  match spanDigits input with
  | ([], _) => none
  | (ds, rest) =>
      match rest with
      | '.' :: _ => none
      | 'e' :: _ => none
      | 'E' :: _ => none
      | _ => some (ds.foldl (fun acc c => acc * 10 + (c.toNat - '0'.toNat)) 0, rest)

mutual

/-- Fuel-indexed JSON value parser. -/
def parseValue : Nat → List Char → Option (Json × List Char)
  | 0, _ => none
  | fuel + 1, input =>
    match skipWs input with
    | 'n' :: 'u' :: 'l' :: 'l' :: rest => some (.null, rest)
    | 't' :: 'r' :: 'u' :: 'e' :: rest => some (.bool true, rest)
    | 'f' :: 'a' :: 'l' :: 's' :: 'e' :: rest => some (.bool false, rest)
    | '"' :: rest => (parseStringChars rest).map (fun p => (.str (String.mk p.1), p.2))
    | '\x7b' :: rest =>
        (match skipWs rest with
         | '\x7d' :: r2 => some (.obj [], r2)
         | r2 => (parseMembers fuel r2).map (fun p => (.obj p.1, p.2)))
    | '[' :: rest =>
        (match skipWs rest with
         | ']' :: r2 => some (.arr [], r2)
         | r2 => (parseElems fuel r2).map (fun p => (.arr p.1, p.2)))
    | '-' :: rest => (parseNat rest).map (fun p => (.num (-(p.1 : Int)), p.2))
    | c :: rest =>
        if c.isDigit then (parseNat (c :: rest)).map (fun p => (.num (p.1 : Int), p.2))
        else none
    | [] => none

/-- Parse the elements of a nonempty JSON array up to the closing bracket. -/
def parseElems : Nat → List Char → Option (List Json × List Char)
  | 0, _ => none
  | fuel + 1, input => do
      let (j, rest) ← parseValue fuel input
      match skipWs rest with
      | ',' :: r2 => do
          let (js, r3) ← parseElems fuel r2
          pure (j :: js, r3)
      | ']' :: r2 => pure ([j], r2)
      | _ => none

/-- Parse the members of a nonempty JSON object up to the closing brace. -/
def parseMembers : Nat → List Char → Option (List (String × Json) × List Char)
  | 0, _ => none
  | fuel + 1, input =>
    match skipWs input with
    | '"' :: rest => do
        let (kcs, r1) ← parseStringChars rest
        match skipWs r1 with
        | ':' :: r2 => do
            let (v, r3) ← parseValue fuel r2
            (match skipWs r3 with
             | ',' :: r4 => do
                 let (ms, r5) ← parseMembers fuel r4
                 pure ((String.mk kcs, v) :: ms, r5)
             | '\x7d' :: r4 => pure ([(String.mk kcs, v)], r4)
             | _ => none)
        | _ => none
    | _ => none

end

/-- Modelled from the Python stdlib `json.loads`: `some` on a JSON
document (within the modelled fragment), `none` where `json.loads`
raises `json.JSONDecodeError`. -/
def json_loads (s : String) : Option Json :=
  match parseValue (s.length + 1) s.data with
  | some (j, rest) => if skipWs rest = [] then some j else none
  | none => none

/-- `@dataclass Comment` (`app.py` lines 19-23). -/
structure Comment where
  id : Nat
  text : String
  created_at : String
deriving Repr, DecidableEq

/-- `@dataclass ConsolidatedComment` (`app.py` lines 26-30). -/
structure ConsolidatedComment where
  comment_id : Nat
  consolidated_text : String
  created_at : String
deriving Repr, DecidableEq

/-- An entry of the `executive_summaries` log
(`app.py` line 160: `{"summary_text": ..., "created_at": ...}`). -/
structure ExecutiveSummary where
  summary_text : String
  created_at : String
deriving Repr, DecidableEq

/-- The store aggregate held by `data/comments_store.json`
(`empty_store`, `app.py` lines 37-38). -/
structure Store where
  comments : List Comment
  consolidated_comments : List ConsolidatedComment
  executive_summaries : List ExecutiveSummary
deriving Repr, DecidableEq

/-- `empty_store()` (`app.py` lines 37-38). -/
def empty_store : Store := ⟨[], [], []⟩

/-- One invocation of `call_openai`, recorded at stage granularity: the
constructor identifies which stage function made the call and carries
the data that stage interpolates into its prompts. -/
inductive UpCall where
  | translate (api_key text : String) : UpCall
  | consolidate (api_key text tone_rules : String) : UpCall
  | summarize (api_key context : String) : UpCall
  | improve (api_key text improvement_rules : String) : UpCall
  | ask (api_key question context : String) : UpCall
deriving Repr, DecidableEq

/-- The behaviour of the external endpoint: for an invocation, either
the content string `call_openai` returns, or the message of the
`RuntimeError` it raises (`app.py` lines 60-91). -/
def Oracle : Type := UpCall → Except String String

/-- `translate_to_english_with_openai` (`app.py` lines 126-129): one
upstream call, whose result (or error) is returned as is. -/
def translate_to_english_with_openai (o : Oracle) (api_key text : String) :
    Except String String × List UpCall :=
  (o (.translate api_key text), [.translate api_key text])

/-- `consolidate_comment_with_openai` (`app.py` lines 132-143): one
upstream call carrying the comment text and the tone/style rules. -/
def consolidate_comment_with_openai (o : Oracle) (api_key text tone_rules : String) :
    Except String String × List UpCall :=
  (o (.consolidate api_key text tone_rules), [.consolidate api_key text tone_rules])

/-- The bulleted context built from the consolidated log
(`app.py` line 151 and line 167):
`"\n".join(f"- \x7brow['consolidated_text']\x7d" for row in comments)`. -/
def bullet_context (rows : List ConsolidatedComment) : String :=
  String.intercalate "\n" (rows.map (fun row => "- " ++ row.consolidated_text))

/-- The fixed degraded structure the review-suggest stage returns when
`json.loads` fails (`app.py` lines 118-123): `revised_comment` holds the
raw unparsed text, the other fields are fixed placeholders. -/
def degraded_improve (raw : String) : Json :=
  .obj [("quality_assessment", .str "Model output was not strict JSON. Showing raw output."),
        ("suggestions", .arr [.str "Retry with clearer rules in configuration panel."]),
        ("revised_comment", .str raw),
        ("missing_information", .arr [])]

/-- `improve_comment_with_openai` (`app.py` lines 94-123): one upstream
call; the response is parsed with `json.loads` and returned as is on
success, replaced by `degraded_improve` on a decode error; an upstream
`RuntimeError` propagates. -/
def improve_comment_with_openai (o : Oracle) (api_key text improvement_rules : String) :
    Except String Json × List UpCall :=
  match o (.improve api_key text improvement_rules) with
  | .error e => (.error e, [.improve api_key text improvement_rules])
  | .ok raw =>
      match json_loads raw with
      | some j => (.ok j, [.improve api_key text improvement_rules])
      | none => (.ok (degraded_improve raw), [.improve api_key text improvement_rules])

/-- `update_executive_summary_with_openai` (`app.py` lines 146-160):
with an empty consolidated log the sentinel summary is written without
an upstream call; otherwise the summary is requested over the bulleted
context of the whole log.  In both cases `executive_summaries` is
*replaced* by the single new entry; an upstream error propagates with
the store unchanged. -/
def update_executive_summary_with_openai (o : Oracle) (now : String)
    (store : Store) (api_key : String) : Except String Store × List UpCall :=
  if store.consolidated_comments = [] then
    (.ok { store with executive_summaries :=
             [⟨"No consolidated comments available yet.", now⟩] }, [])
  else
    match o (.summarize api_key (bullet_context store.consolidated_comments)) with
    | .ok summary_text =>
        (.ok { store with executive_summaries := [⟨summary_text, now⟩] },
         [.summarize api_key (bullet_context store.consolidated_comments)])
    | .error e =>
        (.error e, [.summarize api_key (bullet_context store.consolidated_comments)])

/-- `answer_question_with_openai` (`app.py` lines 163-175): the fixed
sentinel answer without any upstream call when the consolidated log is
empty, otherwise one upstream call over the bulleted context. -/
def answer_question_with_openai (o : Oracle) (api_key question : String)
    (consolidated_comments : List ConsolidatedComment) :
    Except String String × List UpCall :=
  if consolidated_comments = [] then
    (.ok "No consolidated comments available for analysis yet.", [])
  else
    (o (.ask api_key question (bullet_context consolidated_comments)),
     [.ask api_key question (bullet_context consolidated_comments)])

/-- The request body of `POST /api/comment` (`app.py` lines 527-533).
A `none` field models an absent key (`body.get` returning `None`). -/
structure CommentBody where
  text : Option String
  api_key : Option String
  suggest_improvements : Option Bool
  normalize_english : Option Bool
  reviewed : Option Bool
  tone_rules : Option String
  improvement_rules : Option String
deriving Repr, DecidableEq

/-- The request body of `POST /api/ask` (`app.py` lines 596-597). -/
structure AskBody where
  question : Option String
  api_key : Option String
deriving Repr, DecidableEq

/-- Python's `str.strip()` with no argument: drop whitespace from both
ends (whitespace modelled as space, tab, carriage return, newline). -/
def pystrip (s : String) : String :=
  String.mk (((s.data.dropWhile Char.isWhitespace).reverse.dropWhile Char.isWhitespace).reverse)

/-- `(body.get(k) or "").strip()`: an absent field and an empty field
both normalise to `""`, then whitespace is stripped. -/
def getStr (o : Option String) : String := pystrip (o.getD "")

/-- `bool(body.get(k, False))` for the boolean flags. -/
def getBool (o : Option Bool) : Bool := o.getD false

/-- The distinct JSON responses `_send_json` emits on the two POST
routes modelled here (`app.py`).  Statuses: `badRequest` is 400
`{"error": msg}`, `badGateway` is 502 `{"error": msg}`, `requiresReview`
is 200 `{"requires_review": true, **result}`, `okStatus` is 200
`{"status": "ok"}`, `answer` is 200 `{"answer": text}`. -/
inductive Response where
  | badRequest (msg : String) : Response
  | badGateway (msg : String) : Response
  | requiresReview (result : Json) : Response
  | okStatus : Response
  | answer (text : String) : Response
deriving Repr

/-- The default tone instruction used when the submitted `tone_rules`
are blank (`app.py` line 565: `tone_rules or "Use professional and
consistent tone with strong readability."`). -/
def default_tone_rules : String :=
  "Use professional and consistent tone with strong readability."

/-- The tail of the commit path (`app.py` lines 562-591): consolidate
over the effective tone rules, append the `Comment` and the
`ConsolidatedComment`, refresh the executive summary, persist.  The
returned `Store` is the backing file: `save_store` runs only on the
fully successful path (line 590), so on the summarize-failure path
(lines 584-588) the handler answers 502 `"Comment saved, but summary
update failed: ..."` while the file keeps the pre-request store. -/
def consolidate_and_save (o : Oracle) (now : String) (s : Store)
    (api_key final_text tone_rules : String) : Response × Store × List UpCall :=
  let rules := if tone_rules = "" then default_tone_rules else tone_rules
  match consolidate_comment_with_openai o api_key final_text rules with
  | (.error e, tr) => (.badGateway e, s, tr)
  | (.ok consolidated, tr) =>
      let comment_id := s.comments.length + 1
      let s1 : Store := { s with comments := s.comments ++ [⟨comment_id, final_text, now⟩] }
      let s2 : Store := { s1 with consolidated_comments :=
                            s1.consolidated_comments ++ [⟨comment_id, consolidated, now⟩] }
      match update_executive_summary_with_openai o now s2 api_key with
      | (.error e, tr2) =>
          (.badGateway ("Comment saved, but summary update failed: " ++ e), s, tr ++ tr2)
      | (.ok s3, tr2) => (.okStatus, s3, tr ++ tr2)

/-- The `POST /api/comment` handler (`app.py` lines 525-592): field
normalisation, the two validation rejections, the review-suggest
short-circuit (`suggest_improvements and not reviewed`), then the
commit path (optional translate, then `consolidate_and_save`). -/
def handle_comment (o : Oracle) (now : String) (s : Store) (b : CommentBody) :
    Response × Store × List UpCall :=
  if getStr b.text = "" then
    (.badRequest "Comment text is required.", s, [])
  else if getStr b.api_key = "" then
    (.badRequest "OpenAI API key is required in configuration.", s, [])
  else if getBool b.suggest_improvements && !getBool b.reviewed then
    (if getStr b.improvement_rules = "" then
      (.badRequest "Please set 'Improvements rules' in configuration before requesting suggestions.",
       s, [])
    else
      match improve_comment_with_openai o (getStr b.api_key) (getStr b.text)
              (getStr b.improvement_rules) with
      | (.error e, tr) => (.badGateway e, s, tr)
      | (.ok result, tr) => (.requiresReview result, s, tr))
  else if getBool b.normalize_english then
    match translate_to_english_with_openai o (getStr b.api_key) (getStr b.text) with
    | (.error e, tr) => (.badGateway e, s, tr)
    | (.ok final_text, tr) =>
        let r := consolidate_and_save o now s (getStr b.api_key) final_text (getStr b.tone_rules)
        (r.1, r.2.1, tr ++ r.2.2)
  else
    consolidate_and_save o now s (getStr b.api_key) (getStr b.text) (getStr b.tone_rules)

/-- The `POST /api/ask` handler (`app.py` lines 594-611): the blank
question check precedes the credential check and `load_store()`; the
store is consulted only by `answer_question_with_openai`. -/
def handle_ask (o : Oracle) (s : Store) (b : AskBody) : Response × List UpCall :=
  if getStr b.question = "" then
    (.answer "Please insert a question.", [])
  else if getStr b.api_key = "" then
    (.badRequest "OpenAI API key is required in configuration.", [])
  else
    match answer_question_with_openai o (getStr b.api_key) (getStr b.question)
            s.consolidated_comments with
    | (.error e, tr) => (.badGateway e, tr)
    | (.ok ans, tr) => (.answer ans, tr)

/-- A sequence of `POST /api/comment` commits, each starting from the
store the previous one persisted; `some` only when every request
answered `{"status": "ok"}`. -/
def run_commits (o : Oracle) (now : String) : Store → List CommentBody → Option Store
  | s, [] => some s
  | s, b :: bs =>
      match handle_comment o now s b with
      | (.okStatus, s', _) => run_commits o now s' bs
      | _ => none

/-! ## Helper lemmas -/

/-- A successful pass through the commit tail appends exactly one
`Comment` and one matching `ConsolidatedComment`, replaces the summary
log with a single entry, and records the summarize call over the
bulleted context of the full resulting consolidated log. -/
theorem consolidate_and_save_ok (o : Oracle) (now : String) (s : Store)
    (k ft tnr : String) (s' : Store) (tr : List UpCall)
    (hr : consolidate_and_save o now s k ft tnr = (.okStatus, s', tr)) :
    ∃ ctext stext,
      s'.comments = s.comments ++ [⟨s.comments.length + 1, ft, now⟩] ∧
      s'.consolidated_comments =
        s.consolidated_comments ++ [⟨s.comments.length + 1, ctext, now⟩] ∧
      s'.executive_summaries = [⟨stext, now⟩] ∧
      UpCall.summarize k (bullet_context s'.consolidated_comments) ∈ tr := by
  cases hc : o (.consolidate k ft (if tnr = "" then default_tone_rules else tnr)) with
  | error e =>
      simp [consolidate_and_save, consolidate_comment_with_openai, hc] at hr
  | ok ctext =>
      cases hs : o (.summarize k (bullet_context (s.consolidated_comments ++
          [⟨s.comments.length + 1, ctext, now⟩]))) with
      | error e =>
          simp [consolidate_and_save, consolidate_comment_with_openai,
            update_executive_summary_with_openai, hc, hs] at hr
      | ok stext =>
          refine ⟨ctext, stext, ?_⟩
          simp [consolidate_and_save, consolidate_comment_with_openai,
            update_executive_summary_with_openai, hc, hs] at hr
          obtain ⟨hs', htr⟩ := hr
          subst hs' htr
          simp [bullet_context]

/-- A `POST /api/comment` that answers `{"status": "ok"}` appends
exactly one `Comment` and one matching `ConsolidatedComment` (sharing
the freshly assigned id), replaces the summary log with a single entry,
and records the summarize call over the bulleted context of the full
resulting consolidated log. -/
theorem handle_comment_ok (o : Oracle) (now : String) (s : Store) (b : CommentBody)
    (s' : Store) (tr : List UpCall)
    (hr : handle_comment o now s b = (.okStatus, s', tr)) :
    ∃ ft ctext stext,
      s'.comments = s.comments ++ [⟨s.comments.length + 1, ft, now⟩] ∧
      s'.consolidated_comments =
        s.consolidated_comments ++ [⟨s.comments.length + 1, ctext, now⟩] ∧
      s'.executive_summaries = [⟨stext, now⟩] ∧
      UpCall.summarize (getStr b.api_key) (bullet_context s'.consolidated_comments) ∈ tr := by
  by_cases ht : getStr b.text = ""
  · simp [handle_comment, ht] at hr
  by_cases hk : getStr b.api_key = ""
  · simp [handle_comment, ht, hk] at hr
  cases hg : getBool b.suggest_improvements && !getBool b.reviewed with
  | true =>
      by_cases hi : getStr b.improvement_rules = ""
      · simp [handle_comment, ht, hk, hg, hi] at hr
      cases him : o (.improve (getStr b.api_key) (getStr b.text) (getStr b.improvement_rules)) with
      | error e =>
          simp [handle_comment, improve_comment_with_openai, ht, hk, hg, hi, him] at hr
      | ok raw =>
          cases hj : json_loads raw with
          | some j =>
              simp [handle_comment, improve_comment_with_openai, ht, hk, hg, hi, him, hj] at hr
          | none =>
              simp [handle_comment, improve_comment_with_openai, ht, hk, hg, hi, him, hj] at hr
  | false =>
      cases hn : getBool b.normalize_english with
      | false =>
          simp only [handle_comment, ht, hk, hg, hn, if_neg, Bool.false_eq_true,
            if_false] at hr
          exact ⟨getStr b.text, consolidate_and_save_ok o now s (getStr b.api_key)
            (getStr b.text) (getStr b.tone_rules) s' tr hr⟩
      | true =>
          cases htr : o (.translate (getStr b.api_key) (getStr b.text)) with
          | error e =>
              simp [handle_comment, translate_to_english_with_openai, ht, hk, hg, hn,
                htr] at hr
          | ok ft =>
              simp only [handle_comment, translate_to_english_with_openai, ht, hk, hg, hn,
                htr, if_neg, Bool.false_eq_true, if_false, if_true, Prod.mk.injEq] at hr
              obtain ⟨h1, h2, h3⟩ := hr
              have hcs : consolidate_and_save o now s (getStr b.api_key) ft
                  (getStr b.tone_rules) =
                  (.okStatus, s',
                   (consolidate_and_save o now s (getStr b.api_key) ft
                      (getStr b.tone_rules)).2.2) := by
                rw [← h1, ← h2]
              obtain ⟨ctext, stext, hc1, hc2, hc3, hc4⟩ :=
                consolidate_and_save_ok o now s (getStr b.api_key) ft
                  (getStr b.tone_rules) s' _ hcs
              refine ⟨ft, ctext, stext, hc1, hc2, hc3, ?_⟩
              rw [← h3]
              exact List.mem_append_right _ hc4

/-! ## Claims -/

/-- C1: evidence of the divergence.  On a commit where the consolidate
stage succeeds and the summarize stage's upstream call fails, the
handler answers the distinct 502 `"Comment saved, but summary update
failed: ..."` — but the backing store it leaves behind is exactly the
pre-request store (`save_store`, `app.py` line 590, is only reached on
the fully successful path), so `len(comments)` and
`len(consolidated_comments)` stay at their previous values instead of
`previous+1` as the claim (and the response text itself) state. -/
theorem summarize_failure_leaves_backing_store_unchanged :
    handle_comment
        (fun c => match c with
          | .summarize _ _ => .error "boom"
          | .consolidate _ _ _ => .ok "Consolidated text."
          | _ => .ok "x")
        "T" empty_store
        ⟨some "Sales dropped", some "k", none, none, none, some "", none⟩ =
      (.badGateway "Comment saved, but summary update failed: boom", empty_store,
       [.consolidate "k" "Sales dropped" default_tone_rules,
        .summarize "k" "- Consolidated text."]) ∧
    empty_store.comments.length = 0 ∧ empty_store.consolidated_comments.length = 0 := by
  exact ⟨rfl, rfl, rfl⟩

/-- C2: after any `POST /api/comment` that answers `{"status": "ok"}`,
starting from a store whose two logs have equal length, the resulting
store again has `len(comments) = len(consolidated_comments)` and the
last elements of the two logs carry the same `comment_id`. -/
theorem commit_ok_store_invariant (o : Oracle) (now : String) (s : Store)
    (b : CommentBody) (s' : Store) (tr : List UpCall)
    (hok : handle_comment o now s b = (.okStatus, s', tr))
    (hlen : s.comments.length = s.consolidated_comments.length) :
    s'.comments.length = s'.consolidated_comments.length ∧
    s'.comments.getLast?.map Comment.id =
      s'.consolidated_comments.getLast?.map ConsolidatedComment.comment_id ∧
    s'.comments ≠ [] := by
  obtain ⟨ft, ctext, stext, h1, h2, h3, h4⟩ := handle_comment_ok o now s b s' tr hok
  refine ⟨?_, ?_, ?_⟩
  · rw [h1, h2]
    simp [hlen]
  · rw [h1, h2]
    simp [List.getLast?_concat]
  · rw [h1]
    simp

/-- Witness for C2 at a concrete successful commit. -/
theorem commit_ok_store_invariant_witness :
    (⟨[⟨1, "hello", "T"⟩], [⟨1, "C", "T"⟩], [⟨"S", "T"⟩]⟩ : Store).comments.length =
      (⟨[⟨1, "hello", "T"⟩], [⟨1, "C", "T"⟩], [⟨"S", "T"⟩]⟩ : Store).consolidated_comments.length ∧
    (⟨[⟨1, "hello", "T"⟩], [⟨1, "C", "T"⟩], [⟨"S", "T"⟩]⟩ : Store).comments.getLast?.map Comment.id =
      (⟨[⟨1, "hello", "T"⟩], [⟨1, "C", "T"⟩], [⟨"S", "T"⟩]⟩ : Store).consolidated_comments.getLast?.map
        ConsolidatedComment.comment_id ∧
    (⟨[⟨1, "hello", "T"⟩], [⟨1, "C", "T"⟩], [⟨"S", "T"⟩]⟩ : Store).comments ≠ [] :=
  commit_ok_store_invariant
    (fun c => match c with
      | .consolidate _ _ _ => .ok "C"
      | .summarize _ _ => .ok "S"
      | _ => .ok "x")
    "T" empty_store ⟨some "hello", some "k", none, none, none, none, none⟩
    ⟨[⟨1, "hello", "T"⟩], [⟨1, "C", "T"⟩], [⟨"S", "T"⟩]⟩
    [.consolidate "k" "hello" default_tone_rules, .summarize "k" "- C"]
    rfl rfl

/-- C3: a `POST /api/comment` with `suggest_improvements=true` and
`reviewed=false` (non-blank text, api key and improvement rules)
short-circuits to the review-suggest stage: its whole outcome is that
stage's outcome with the store untouched, and in particular the
resulting store is the original one. -/
theorem review_short_circuit_no_store_mutation (o : Oracle) (now : String)
    (s : Store) (b : CommentBody)
    (ht : getStr b.text ≠ "") (hk : getStr b.api_key ≠ "")
    (hs : getBool b.suggest_improvements = true) (hv : getBool b.reviewed = false)
    (hi : getStr b.improvement_rules ≠ "") :
    (handle_comment o now s b).2.1 = s ∧
    handle_comment o now s b =
      (match improve_comment_with_openai o (getStr b.api_key) (getStr b.text)
               (getStr b.improvement_rules) with
       | (.error e, tr) => (.badGateway e, s, tr)
       | (.ok result, tr) => (.requiresReview result, s, tr)) := by
  have hmain : handle_comment o now s b =
      (match improve_comment_with_openai o (getStr b.api_key) (getStr b.text)
               (getStr b.improvement_rules) with
       | (.error e, tr) => (.badGateway e, s, tr)
       | (.ok result, tr) => (.requiresReview result, s, tr)) := by
    simp [handle_comment, ht, hk, hs, hv, hi]
  refine ⟨?_, hmain⟩
  rw [hmain]
  rcases improve_comment_with_openai o (getStr b.api_key) (getStr b.text)
      (getStr b.improvement_rules) with ⟨res, tr⟩
  cases res <;> rfl

/-- Witness for C3 at a concrete review request. -/
theorem review_short_circuit_no_store_mutation_witness :
    (handle_comment (fun _ => .ok "raw suggestion text") "T" empty_store
        ⟨some "hello", some "k", some true, none, some false, none, some "rules"⟩).2.1 =
      empty_store ∧
    handle_comment (fun _ => .ok "raw suggestion text") "T" empty_store
        ⟨some "hello", some "k", some true, none, some false, none, some "rules"⟩ =
      (match improve_comment_with_openai (fun _ => .ok "raw suggestion text") "k" "hello"
               "rules" with
       | (.error e, tr) => (.badGateway e, empty_store, tr)
       | (.ok result, tr) => (.requiresReview result, empty_store, tr)) :=
  review_short_circuit_no_store_mutation (fun _ => .ok "raw suggestion text") "T"
    empty_store ⟨some "hello", some "k", some true, none, some false, none, some "rules"⟩
    (by decide) (by decide) rfl rfl (by decide)

/-- C4: a `POST /api/comment` with `suggest_improvements=true` and
`reviewed=true` has exactly the same outcome (response, resulting
backing store, upstream calls) as the identical request with
`suggest_improvements=false`: both take the commit path. -/
theorem suggest_with_reviewed_equals_plain_commit (o : Oracle) (now : String)
    (s : Store) (b : CommentBody) :
    handle_comment o now s { b with suggest_improvements := some true, reviewed := some true } =
    handle_comment o now s { b with suggest_improvements := some false, reviewed := some true } := by
  rfl

/-- The review-suggest stage performs exactly one upstream call. -/
theorem improve_trace (o : Oracle) (k t r : String) :
    (improve_comment_with_openai o k t r).2 = [.improve k t r] := by
  cases ho : o (.improve k t r) with
  | error e => simp [improve_comment_with_openai, ho]
  | ok raw => cases hj : json_loads raw <;> simp [improve_comment_with_openai, ho, hj]

/-- Every consolidate invocation recorded by the commit tail carries the
effective tone rules: the submitted rules, or the code's fixed default
when they are blank. -/
theorem consolidate_and_save_trace_rules (o : Oracle) (now : String) (s : Store)
    (k ft tnr : String) :
    ∀ c ∈ (consolidate_and_save o now s k ft tnr).2.2, ∀ k2 t2 r2,
      c = UpCall.consolidate k2 t2 r2 →
      r2 = (if tnr = "" then default_tone_rules else tnr) := by
  intro c hc k2 t2 r2 hceq
  cases hco : o (.consolidate k ft (if tnr = "" then default_tone_rules else tnr)) with
  | error e =>
      simp [consolidate_and_save, consolidate_comment_with_openai, hco] at hc
      subst hc
      cases hceq
      rfl
  | ok ctext =>
      cases hsu : o (.summarize k (bullet_context (s.consolidated_comments ++
          [⟨s.comments.length + 1, ctext, now⟩]))) with
      | error e =>
          simp [consolidate_and_save, consolidate_comment_with_openai,
            update_executive_summary_with_openai, hco, hsu] at hc
          rcases hc with hc | hc
          · subst hc; cases hceq; rfl
          · subst hc; cases hceq
      | ok stext =>
          simp [consolidate_and_save, consolidate_comment_with_openai,
            update_executive_summary_with_openai, hco, hsu] at hc
          rcases hc with hc | hc
          · subst hc; cases hceq; rfl
          · subst hc; cases hceq

/-- C5 counterexample: committing `"Sales dropped"` with blank
`tone_rules` invokes the consolidate stage with the code's default
`"Use professional and consistent tone with strong readability."`,
which is not the string `"use professional and consistent tone"` the
claim fixes; no consolidate invocation carries the claimed string. -/
theorem default_tone_rules_counterexample :
    (handle_comment
        (fun c => match c with
          | .consolidate _ _ _ => .ok "C"
          | .summarize _ _ => .ok "S"
          | _ => .ok "x")
        "T" empty_store
        ⟨some "Sales dropped", some "k", none, none, none, some "", none⟩).2.2 =
      [.consolidate "k" "Sales dropped" default_tone_rules, .summarize "k" "- C"] ∧
    UpCall.consolidate "k" "Sales dropped" "use professional and consistent tone" ∉
      (handle_comment
        (fun c => match c with
          | .consolidate _ _ _ => .ok "C"
          | .summarize _ _ => .ok "S"
          | _ => .ok "x")
        "T" empty_store
        ⟨some "Sales dropped", some "k", none, none, none, some "", none⟩).2.2 ∧
    default_tone_rules ≠ "use professional and consistent tone" := by
  exact ⟨rfl, by decide, by decide⟩

/-- C5 (amended): for every `POST /api/comment` whose `tone_rules`
field is blank (absent, empty or whitespace-only), every consolidate
invocation the request performs carries the fixed default instruction
`"Use professional and consistent tone with strong readability."` —
never an empty rules string. -/
theorem blank_tone_rules_use_code_default (o : Oracle) (now : String) (s : Store)
    (b : CommentBody) (hb : getStr b.tone_rules = "") :
    ∀ c ∈ (handle_comment o now s b).2.2, ∀ k t r,
      c = UpCall.consolidate k t r → r = default_tone_rules ∧ r ≠ "" := by
  have hr : ∀ c ∈ (handle_comment o now s b).2.2, ∀ k t r,
      c = UpCall.consolidate k t r → r = default_tone_rules := by
    intro c hc k t r hceq
    by_cases ht : getStr b.text = ""
    · simp [handle_comment, ht] at hc
    by_cases hk : getStr b.api_key = ""
    · simp [handle_comment, ht, hk] at hc
    cases hg : getBool b.suggest_improvements && !getBool b.reviewed with
    | true =>
        by_cases hi : getStr b.improvement_rules = ""
        · simp [handle_comment, ht, hk, hg, hi] at hc
        rcases him : improve_comment_with_openai o (getStr b.api_key) (getStr b.text)
            (getStr b.improvement_rules) with ⟨res, tr⟩
        have htr : tr = [.improve (getStr b.api_key) (getStr b.text)
            (getStr b.improvement_rules)] := by
          have h2 := improve_trace o (getStr b.api_key) (getStr b.text)
            (getStr b.improvement_rules)
          rw [him] at h2
          exact h2
        cases res with
        | error e =>
            simp [handle_comment, ht, hk, hg, hi, him, htr] at hc
            subst hc; cases hceq
        | ok result =>
            simp [handle_comment, ht, hk, hg, hi, him, htr] at hc
            subst hc; cases hceq
    | false =>
        cases hn : getBool b.normalize_english with
        | false =>
            simp only [handle_comment, ht, hk, hg, hn, Bool.false_eq_true, if_false,
              if_neg] at hc
            have := consolidate_and_save_trace_rules o now s (getStr b.api_key)
              (getStr b.text) (getStr b.tone_rules) c hc k t r hceq
            rwa [hb, if_pos rfl] at this
        | true =>
            cases htrs : o (.translate (getStr b.api_key) (getStr b.text)) with
            | error e =>
                simp [handle_comment, translate_to_english_with_openai, ht, hk, hg, hn,
                  htrs] at hc
                subst hc; cases hceq
            | ok ft =>
                simp only [handle_comment, translate_to_english_with_openai, ht, hk, hg,
                  hn, htrs, Bool.false_eq_true, if_false, if_neg, if_true,
                  List.mem_append, List.mem_cons, List.mem_singleton] at hc
                rcases hc with hc | hc
                · rcases hc with hc | hc
                  · subst hc; cases hceq
                  · simp at hc
                · have := consolidate_and_save_trace_rules o now s (getStr b.api_key)
                    ft (getStr b.tone_rules) c hc k t r hceq
                  rwa [hb, if_pos rfl] at this
  intro c hc k t r hceq
  refine ⟨hr c hc k t r hceq, ?_⟩
  rw [hr c hc k t r hceq]
  decide

/-- Witness for C5 (amended) at a concrete blank-rules commit. -/
theorem blank_tone_rules_use_code_default_witness :
    getStr (some "") = "" ∧
    default_tone_rules = default_tone_rules ∧ default_tone_rules ≠ "" :=
  ⟨rfl,
   blank_tone_rules_use_code_default
     (fun c => match c with
       | .consolidate _ _ _ => .ok "C"
       | .summarize _ _ => .ok "S"
       | _ => .ok "x")
     "T" empty_store
     ⟨some "Sales dropped", some "k", none, none, none, some "", none⟩ rfl
     (UpCall.consolidate "k" "Sales dropped" default_tone_rules) (by decide)
     "k" "Sales dropped" default_tone_rules rfl⟩

/-- C6: on the commit path, an upstream failure of the translate stage
or of the consolidate stage aborts the whole commit: the handler
answers the 502 error response and the backing store is exactly the
pre-request store. -/
theorem translate_consolidate_failure_aborts (o : Oracle) (now : String) (s : Store)
    (b : CommentBody)
    (ht : getStr b.text ≠ "") (hk : getStr b.api_key ≠ "")
    (hg : (getBool b.suggest_improvements && !getBool b.reviewed) = false) :
    (∀ e, getBool b.normalize_english = true →
       o (.translate (getStr b.api_key) (getStr b.text)) = .error e →
       handle_comment o now s b =
         (.badGateway e, s, [.translate (getStr b.api_key) (getStr b.text)])) ∧
    (∀ ft e,
       (if getBool b.normalize_english = true then
          o (.translate (getStr b.api_key) (getStr b.text)) = .ok ft
        else ft = getStr b.text) →
       o (.consolidate (getStr b.api_key) ft
           (if getStr b.tone_rules = "" then default_tone_rules
            else getStr b.tone_rules)) = .error e →
       handle_comment o now s b =
         (.badGateway e, s,
          (if getBool b.normalize_english = true then
             [UpCall.translate (getStr b.api_key) (getStr b.text)]
           else []) ++
          [.consolidate (getStr b.api_key) ft
             (if getStr b.tone_rules = "" then default_tone_rules
              else getStr b.tone_rules)])) := by
  constructor
  · intro e hn htr
    simp [handle_comment, translate_to_english_with_openai, ht, hk, hg, hn, htr]
  · intro ft e hft hc
    cases hn : getBool b.normalize_english with
    | false =>
        rw [hn] at hft
        simp only [Bool.false_eq_true, if_false] at hft
        subst hft
        simp [handle_comment, consolidate_and_save, consolidate_comment_with_openai,
          ht, hk, hg, hn, hc]
    | true =>
        rw [hn] at hft
        simp only [if_true] at hft
        simp [handle_comment, translate_to_english_with_openai, consolidate_and_save,
          consolidate_comment_with_openai, ht, hk, hg, hn, hft, hc]

/-- Witness for C6 at a concrete commit whose consolidate call fails. -/
theorem translate_consolidate_failure_aborts_witness :
    handle_comment
        (fun c => match c with
          | .consolidate _ _ _ => .error "down"
          | _ => .ok "x")
        "T" empty_store ⟨some "hi", some "k", none, none, none, none, none⟩ =
      (.badGateway "down", empty_store, [.consolidate "k" "hi" default_tone_rules]) :=
  (translate_consolidate_failure_aborts
      (fun c => match c with
        | .consolidate _ _ _ => .error "down"
        | _ => .ok "x")
      "T" empty_store ⟨some "hi", some "k", none, none, none, none, none⟩
      (by decide) (by decide) rfl).2 "hi" "down" rfl rfl

/-- C7: the store never accumulates executive summaries: after any
nonempty sequence of sequential successful commits the summary log
holds exactly one entry, and every successful commit records a
summarize invocation whose context is the bulleted join, in original
order, of the *entire* resulting consolidated log (so it included every
consolidated text). -/
theorem executive_summary_singleton (o : Oracle) (now : String) :
    (∀ s bodies s', bodies ≠ [] → run_commits o now s bodies = some s' →
        s'.executive_summaries.length = 1) ∧
    (∀ s b s' tr, handle_comment o now s b = (.okStatus, s', tr) →
        s'.executive_summaries.length = 1 ∧
        UpCall.summarize (getStr b.api_key)
          (bullet_context s'.consolidated_comments) ∈ tr) := by
  have hsingle : ∀ s b s' tr, handle_comment o now s b = (.okStatus, s', tr) →
      s'.executive_summaries.length = 1 ∧
      UpCall.summarize (getStr b.api_key)
        (bullet_context s'.consolidated_comments) ∈ tr := by
    intro s b s' tr h
    obtain ⟨ft, ctext, stext, _, _, h3, h4⟩ := handle_comment_ok o now s b s' tr h
    exact ⟨by rw [h3]; rfl, h4⟩
  refine ⟨?_, hsingle⟩
  intro s bodies
  induction bodies generalizing s with
  | nil => intro s' hne _; exact absurd rfl hne
  | cons b bs ih =>
      intro s' _ hrun
      rcases hh : handle_comment o now s b with ⟨resp, s1, tr⟩
      cases resp with
      | okStatus =>
          simp only [run_commits, hh] at hrun
          cases bs with
          | nil =>
              simp only [run_commits, Option.some.injEq] at hrun
              subst hrun
              exact (hsingle s b s1 tr hh).1
          | cons b2 bs2 =>
              exact ih s1 s' (by simp) hrun
      | badRequest m => simp [run_commits, hh] at hrun
      | badGateway m => simp [run_commits, hh] at hrun
      | requiresReview j => simp [run_commits, hh] at hrun
      | answer t => simp [run_commits, hh] at hrun

/-- Witness for C7: two sequential successful commits end with exactly
one executive summary. -/
theorem executive_summary_singleton_witness :
    run_commits
        (fun c => match c with
          | .consolidate _ _ _ => .ok "C"
          | .summarize _ _ => .ok "S"
          | _ => .ok "x")
        "T" empty_store
        [⟨some "one", some "k", none, none, none, none, none⟩,
         ⟨some "two", some "k", none, none, none, none, none⟩] =
      some ⟨[⟨1, "one", "T"⟩, ⟨2, "two", "T"⟩],
            [⟨1, "C", "T"⟩, ⟨2, "C", "T"⟩], [⟨"S", "T"⟩]⟩ ∧
    (⟨[⟨1, "one", "T"⟩, ⟨2, "two", "T"⟩],
      [⟨1, "C", "T"⟩, ⟨2, "C", "T"⟩], [⟨"S", "T"⟩]⟩ : Store).executive_summaries.length = 1 :=
  ⟨rfl,
   (executive_summary_singleton
       (fun c => match c with
         | .consolidate _ _ _ => .ok "C"
         | .summarize _ _ => .ok "S"
         | _ => .ok "x")
       "T").1 empty_store
     [⟨some "one", some "k", none, none, none, none, none⟩,
      ⟨some "two", some "k", none, none, none, none, none⟩]
     ⟨[⟨1, "one", "T"⟩, ⟨2, "two", "T"⟩],
      [⟨1, "C", "T"⟩, ⟨2, "C", "T"⟩], [⟨"S", "T"⟩]⟩
     (by decide) rfl⟩

/-- C8: on a `POST /api/ask` with non-blank question and api key, an
empty consolidated log yields the fixed sentinel answer with zero
upstream calls; a nonempty log yields exactly one upstream call whose
context is the bulleted join of the consolidated texts in original
order (`bullet_context`). -/
theorem ask_sentinel_and_context (o : Oracle) (s : Store) (b : AskBody)
    (hq : getStr b.question ≠ "") (hk : getStr b.api_key ≠ "") :
    (s.consolidated_comments = [] →
       handle_ask o s b =
         (.answer "No consolidated comments available for analysis yet.", [])) ∧
    (s.consolidated_comments ≠ [] →
       (handle_ask o s b).2 =
         [.ask (getStr b.api_key) (getStr b.question)
            (bullet_context s.consolidated_comments)]) := by
  constructor
  · intro hcc
    simp [handle_ask, answer_question_with_openai, hq, hk, hcc]
  · intro hcc
    cases ha : o (.ask (getStr b.api_key) (getStr b.question)
        (bullet_context s.consolidated_comments)) with
    | error e => simp [handle_ask, answer_question_with_openai, hq, hk, hcc, ha]
    | ok ans => simp [handle_ask, answer_question_with_openai, hq, hk, hcc, ha]

/-- Witness for C8 on an empty and on a one-element consolidated log. -/
theorem ask_sentinel_and_context_witness :
    handle_ask (fun _ => .ok "x") empty_store ⟨some "q", some "k"⟩ =
      (.answer "No consolidated comments available for analysis yet.", []) ∧
    (handle_ask (fun _ => .ok "x") ⟨[], [⟨1, "C1", "T"⟩], []⟩ ⟨some "q", some "k"⟩).2 =
      [.ask "k" "q" "- C1"] :=
  ⟨(ask_sentinel_and_context (fun _ => .ok "x") empty_store ⟨some "q", some "k"⟩
      (by decide) (by decide)).1 rfl,
   (ask_sentinel_and_context (fun _ => .ok "x") ⟨[], [⟨1, "C1", "T"⟩], []⟩
      ⟨some "q", some "k"⟩ (by decide) (by decide)).2 (by simp)⟩

/-- A definition following the spec's words, for comparison with the
code: a review-suggest response "parses as the expected structured
shape" when it is a JSON object carrying the four fields
`quality_assessment`, `suggestions`, `revised_comment`,
`missing_information`. -/
def spec_expected_shape : Json → Bool
  | .obj fields =>
      ["quality_assessment", "suggestions", "revised_comment",
       "missing_information"].all (fun k => fields.any (fun f => f.1 = k))
  | _ => false

/-- C9 counterexample: an upstream response `"\x7b\x7d"` is valid JSON but
does not have the expected structured shape, yet the review-suggest
stage returns it as is — not the degraded structure whose
`revised_comment` holds the raw text. -/
theorem improve_shape_mismatch_counterexample :
    improve_comment_with_openai (fun _ => .ok "\x7b\x7d") "k" "text" "rules" =
      (.ok (Json.obj []), [.improve "k" "text" "rules"]) ∧
    spec_expected_shape (Json.obj []) = false ∧
    Json.obj [] ≠ degraded_improve "\x7b\x7d" := by
  refine ⟨rfl, rfl, ?_⟩
  simp [degraded_improve]

/-- C9 (amended): the review-suggest stage fails exactly when its
upstream call fails; when the upstream response is not decodable as
JSON at all (`json.loads` raises), the stage returns the degraded
structure whose `revised_comment` holds the raw unparsed text — but a
response that decodes as JSON is returned as is, whatever its shape. -/
theorem improve_degrades_only_on_decode_error (o : Oracle) (k t r : String) :
    (∀ e, (improve_comment_with_openai o k t r).1 = .error e ↔
       o (.improve k t r) = .error e) ∧
    (∀ raw, o (.improve k t r) = .ok raw →
       ((json_loads raw = none →
           (improve_comment_with_openai o k t r).1 = .ok (degraded_improve raw)) ∧
        (∀ j, json_loads raw = some j →
           (improve_comment_with_openai o k t r).1 = .ok j))) := by
  constructor
  · intro e
    cases ho : o (.improve k t r) with
    | error e2 => simp [improve_comment_with_openai, ho]
    | ok raw => cases hj : json_loads raw <;>
        simp [improve_comment_with_openai, ho, hj]
  · intro raw ho
    constructor
    · intro hj
      simp [improve_comment_with_openai, ho, hj]
    · intro j hj
      simp [improve_comment_with_openai, ho, hj]

/-- Witness for C9 (amended): a non-JSON upstream response is degraded
with the raw text in `revised_comment`. -/
theorem improve_degrades_only_on_decode_error_witness :
    json_loads "not json" = none ∧
    (improve_comment_with_openai (fun _ => .ok "not json") "k" "t" "r").1 =
      .ok (degraded_improve "not json") :=
  ⟨rfl,
   ((improve_degrades_only_on_decode_error (fun _ => .ok "not json") "k" "t" "r").2
      "not json" rfl).1 rfl⟩

/-- C10: a `POST /api/ask` whose question is missing, empty or
whitespace-only is answered with the fixed 200 body
`{"answer": "Please insert a question."}` — never the 400
missing-credential error, even with the api key also missing — with no
upstream call, and independently of the store. -/
theorem ask_blank_question_fixed_answer (o : Oracle) (s : Store) (b : AskBody)
    (hq : getStr b.question = "") :
    handle_ask o s b = (.answer "Please insert a question.", []) ∧
    (∀ s2, handle_ask o s2 b = handle_ask o s b) := by
  constructor
  · simp [handle_ask, hq]
  · intro s2
    simp [handle_ask, hq]

/-- Witness for C10: question and api key both absent. -/
theorem ask_blank_question_fixed_answer_witness :
    handle_ask (fun _ => .ok "x") empty_store ⟨none, none⟩ =
      (.answer "Please insert a question.", []) :=
  (ask_blank_question_fixed_answer (fun _ => .ok "x") empty_store ⟨none, none⟩ rfl).1
